import Mathlib

/-!
Verification of the landsat-bigquery repository.

The file embeds the two source modules the claims are about:

* `src/src/bq_utils.py` — the cost-guarded query runner
  (`estimate_query_cost`, `run_query`);
* `src/export.py` — the Landsat centroid export (`images_to_points`).

Machine floats of the Python source are embedded as exact rationals;
byte counts and prices are nonnegative in all intended uses but carried
as rationals so that the arithmetic of the source line
`(dry_run.total_bytes_processed / 1024 ** 4) * cost_per_tb` is exact.

The external BigQuery engine is not part of the repository; its
behaviour relevant to the claims (dry-run byte reporting and the result
cache honoured by the `dry_run` and `use_query_cache` flags of a
`QueryJobConfig`) is modelled as a small state machine, `Warehouse`.
The embedded functions thread the warehouse state explicitly and record
an event trace of every query submission, every confirmation prompt and
every console print, so that the claims about "submits exactly once",
"never prompts" and error propagation become statements about traces.
-/

namespace LandsatBigQuery

/-- Job configuration, mirroring the two `bigquery.QueryJobConfig` fields the
source sets. BigQuery defaults are `dry_run = False`, `use_query_cache = True`. -/
structure QueryJobConfig where
  dry_run : Bool := false
  use_query_cache : Bool := true
  deriving DecidableEq

/-- The slice of a `bigquery.QueryJob` the source reads: the dry-run byte
count. A handle returned from a real execution is also represented by this
record (its payload is irrelevant to the claims beyond identity). -/
structure QueryJob where
  total_bytes_processed : ℚ
  deriving DecidableEq

/-- Modelled from the spec: the external warehouse engine. `scanBytes` is the
number of bytes a query would scan over the current data (or a failure of the
dry-run submission itself); `runJob` is the outcome of a real execution;
`cache` is the result cache, keyed by query text. The spec notes that a
cached hit would report a misleadingly low byte count, which the model
renders as a zero-byte dry-run report on a cache hit when the cache is
consulted. -/
structure Warehouse where
  scanBytes : String → Except String ℚ
  runJob : String → Except String QueryJob
  cache : List (String × QueryJob)

/-- Modelled from the spec: semantics of `client.query(query, job_config)`.
A dry run never mutates the cache; with the cache enabled a dry run reports
zero bytes for a cached query. A real run with the cache enabled is served
from the cache when possible; otherwise the job runs and its result is
cached. An absent config means the BigQuery defaults. -/
def Warehouse.query (w : Warehouse) (q : String) (config : Option QueryJobConfig) :
    Except String QueryJob × Warehouse :=
  let cfg := config.getD {}
  if cfg.dry_run then
    if cfg.use_query_cache && (w.cache.lookup q).isSome then
      (Except.ok { total_bytes_processed := 0 }, w)
    else
      match w.scanBytes q with
      | Except.error e => (Except.error e, w)
      | Except.ok b => (Except.ok { total_bytes_processed := b }, w)
  else
    match if cfg.use_query_cache then w.cache.lookup q else none with
    | some j => (Except.ok j, w)
    | none =>
      match w.runJob q with
      | Except.error e => (Except.error e, w)
      | Except.ok j => (Except.ok j, { w with cache := (q, j) :: w.cache })

/-- Observable events of the guarded runner: a query submission with the
config it was given, a confirmation prompt showing an estimated cost, and a
console print. -/
inductive Event where
  | submit (query : String) (config : Option QueryJobConfig)
  | prompt (estimated_cost : ℚ)
  | printed (msg : String)
  deriving DecidableEq

/-- True exactly on submission events. -/
def Event.isSubmit : Event → Bool
  | Event.submit _ _ => true
  | _ => false

/-- True exactly on confirmation-prompt events. -/
def Event.isPrompt : Event → Bool
  | Event.prompt _ => true
  | _ => false

/-- How `run_query` can finish: return a job handle, terminate the process
via `sys.exit` with an exit code, or let an exception propagate. -/
inductive RunOutcome where
  | job (j : QueryJob)
  | exited (code : Nat)
  | raised (e : String)
  deriving DecidableEq

/-- The config built at `bq_utils.py` lines 6-9:
`QueryJobConfig(dry_run=True, use_query_cache=False)`. -/
def dryRunConfig : QueryJobConfig :=
  { dry_run := true, use_query_cache := false }

/-- Embedding of `estimate_query_cost` (`bq_utils.py` lines 5-12). Submits
the query once with the dry-run config and returns
`(total_bytes_processed / 1024 ^ 4) * cost_per_tb`; a failed dry run
propagates its error. The Python default for `cost_per_tb` is 6. -/
def estimate_query_cost (w : Warehouse) (query : String) (cost_per_tb : ℚ := 6) :
    (List Event × Except String ℚ) × Warehouse :=
  let config := dryRunConfig
  match w.query query (some config) with
  | (Except.error e, w1) => (([Event.submit query (some config)], Except.error e), w1)
  | (Except.ok dry_run, w1) =>
      (([Event.submit query (some config)],
        Except.ok (dry_run.total_bytes_processed / 1024 ^ 4 * cost_per_tb)), w1)

/-- The single real-execution call site of `run_query` (`bq_utils.py`
line 29): `return client.query(query, job_config=config)`. The submit event
carries exactly the caller-supplied config. -/
def submitReal (w : Warehouse) (query : String) (config : Option QueryJobConfig)
    (evs : List Event) : (List Event × RunOutcome) × Warehouse :=
  match w.query query config with
  | (Except.error e, w2) => ((evs ++ [Event.submit query config], RunOutcome.raised e), w2)
  | (Except.ok job, w2) => ((evs ++ [Event.submit query config], RunOutcome.job job), w2)

/-- Embedding of the Python string method `lower` used at `bq_utils.py`
line 25: each character is lowered individually (for the ASCII inputs the
confirmation check compares against, this is exact). -/
def lower (s : String) : String :=
  String.mk (s.data.map Char.toLower)

/-- Embedding of `run_query` (`bq_utils.py` lines 15-29). Estimates the cost
with `cost_per_tb = 6.25` (written `25/4`); if the estimate exceeds
`warning_threshold` it prompts once, and unless the lowered input equals
"y" it prints "Query cancelled." and exits with status 0; otherwise it
submits the real query with the caller config. `userInput` is what the
blocking `input(...)` call would return. Python defaults: `config = None`,
`warning_threshold = 0.001`. -/
def run_query (w : Warehouse) (userInput : String) (query : String)
    (config : Option QueryJobConfig := none) (warning_threshold : ℚ := 1/1000) :
    (List Event × RunOutcome) × Warehouse :=
  match estimate_query_cost w query (25/4) with
  | ((evs, Except.error e), w1) => ((evs, RunOutcome.raised e), w1)
  | ((evs, Except.ok estimated_cost), w1) =>
    if estimated_cost > warning_threshold then
      if lower userInput ≠ "y" then
        ((evs ++ [Event.prompt estimated_cost, Event.printed "Query cancelled."],
          RunOutcome.exited 0), w1)
      else
        submitReal w1 query config (evs ++ [Event.prompt estimated_cost])
    else
      submitReal w1 query config evs

/-!
Embedding of `src/export.py`. An Earth Engine image exposes a footprint
geometry and a property map; `images_to_points` maps every image of a
collection to a feature whose geometry is the centroid point of the image
footprint and whose properties are the ones of `keep_cols` copied from the
image. The centroid computation itself is performed by the external Earth
Engine service, so it is a parameter of the model (`EEApi.centroidPt`); the
code only determines that the result is wrapped as a point geometry.
-/

/-- A planar point with rational coordinates. -/
structure Pt where
  x : ℚ
  y : ℚ
  deriving DecidableEq

/-- An Earth Engine geometry: the claims only need to distinguish points
from polygons (image footprints). -/
inductive EEGeometry where
  | point (p : Pt)
  | polygon (vertices : List Pt)
  deriving DecidableEq

/-- A metadata property value of a catalog entry (string, integer or
floating-point, the latter embedded as a rational). -/
inductive PropValue where
  | str (s : String)
  | int (n : ℤ)
  | num (q : ℚ)
  deriving DecidableEq

/-- An Earth Engine image: a footprint geometry plus a property map,
represented as an association list from property name to value. -/
structure Image where
  geometry : EEGeometry
  properties : List (String × PropValue)

/-- An Earth Engine feature: a geometry plus a property map. -/
structure Feature where
  geometry : EEGeometry
  properties : List (String × PropValue)

/-- The external Earth Engine geometry engine: `centroidPt g` is the point
that `g.centroid()` computes for a geometry `g`. -/
structure EEApi where
  centroidPt : EEGeometry → Pt

/-- Model of `ee.Geometry.centroid`: the centroid of any geometry is
returned as a point geometry. -/
def EEGeometry.centroid (api : EEApi) (g : EEGeometry) : EEGeometry :=
  EEGeometry.point (api.centroidPt g)

/-- Model of `ee.Feature(...).copyProperties(img, keys)`: the properties
named by `keys` that exist on `img` are copied onto the feature, in key
order; other properties of the feature are replaced (the source applies it
to a fresh feature carrying only a geometry). -/
def Feature.copyProperties (f : Feature) (img : Image) (keys : List String) : Feature :=
  { f with properties := keys.filterMap fun k => (img.properties.lookup k).map fun v => (k, v) }

/-- The property subset kept at export (`export.py` lines 25-34). -/
def keep_cols : List String :=
  ["SPACECRAFT_ID", "DATE_ACQUIRED", "WRS_PATH", "WRS_ROW",
   "COLLECTION_CATEGORY", "CLOUD_COVER_LAND", "CLOUD_COVER", "SUN_ELEVATION"]

/-- The inner function `centroid` of `images_to_points` (`export.py` lines
35-36): `ee.Feature(img.geometry().centroid()).copyProperties(img, keep_cols)`. -/
def centroid (api : EEApi) (img : Image) : Feature :=
  (Feature.mk (EEGeometry.centroid api img.geometry) []).copyProperties img keep_cols

/-- Embedding of `images_to_points` (`export.py` lines 23-38):
`col.map(centroid)`. -/
def images_to_points (api : EEApi) (col : List Image) : List Feature :=
  col.map (centroid api)

/-!
Concrete environments used to instantiate the theorems at closed inputs.
-/

/-- A warehouse whose dry run reports zero bytes scanned. -/
def wZero : Warehouse :=
  { scanBytes := fun _ => Except.ok 0,
    runJob := fun _ => Except.ok { total_bytes_processed := 0 },
    cache := [] }

/-- A warehouse whose dry run reports one tebibyte (2 ^ 40 bytes), giving an
estimated cost of 6.25 inside run_query. -/
def wTB : Warehouse :=
  { scanBytes := fun _ => Except.ok (2 ^ 40),
    runJob := fun _ => Except.ok { total_bytes_processed := 2 ^ 40 },
    cache := [] }

/-- A warehouse whose submissions fail. -/
def wFail : Warehouse :=
  { scanBytes := fun _ => Except.error "dry run failed",
    runJob := fun _ => Except.error "execution failed",
    cache := [] }

/-- A warehouse holding a cached result for the query "Q". -/
def wCached : Warehouse :=
  { scanBytes := fun _ => Except.ok 0,
    runJob := fun _ => Except.ok { total_bytes_processed := 1 },
    cache := [("Q", { total_bytes_processed := 7 })] }

/-- A concrete geometry engine mapping every geometry to the origin. -/
def apiZero : EEApi :=
  { centroidPt := fun _ => { x := 0, y := 0 } }

/-- A concrete image with a triangular footprint and the full exported
property set. -/
def img0 : Image :=
  { geometry := EEGeometry.polygon [⟨0, 0⟩, ⟨1, 0⟩, ⟨0, 1⟩],
    properties :=
      [("SPACECRAFT_ID", PropValue.str "LANDSAT_8"),
       ("DATE_ACQUIRED", PropValue.str "2020-01-01"),
       ("WRS_PATH", PropValue.int 44),
       ("WRS_ROW", PropValue.int 34),
       ("COLLECTION_CATEGORY", PropValue.str "T1"),
       ("CLOUD_COVER_LAND", PropValue.num 10),
       ("CLOUD_COVER", PropValue.num 12),
       ("SUN_ELEVATION", PropValue.num 45)] }

/-!
Helper lemmas shared by the claim theorems: closed forms for the dry-run
submission, the three control paths of `run_query`, and the real-execution
call site.
-/

/-- Closed form of `estimate_query_cost`: one dry-run submission, the cost
formula applied to the fresh scan count, warehouse state untouched. -/
theorem estimate_eq (w : Warehouse) (q : String) (p : ℚ) :
    estimate_query_cost w q p =
      (([Event.submit q (some dryRunConfig)],
        (w.scanBytes q).map fun b => b / 1024 ^ 4 * p), w) := by
  unfold estimate_query_cost Warehouse.query dryRunConfig
  cases h : w.scanBytes q <;> simp [h, Except.map]

/-- A failing dry run makes `run_query` propagate the error with no real
submission and no prompt. -/
theorem run_query_dry_error (w : Warehouse) (ui q : String) (cfg : Option QueryJobConfig)
    (thr : ℚ) (e : String) (h : w.scanBytes q = Except.error e) :
    run_query w ui q cfg thr =
      (([Event.submit q (some dryRunConfig)], RunOutcome.raised e), w) := by
  unfold run_query
  rw [estimate_eq, h]
  rfl

/-- When the estimate is at most the threshold, `run_query` goes straight to
the real execution. -/
theorem run_query_le (w : Warehouse) (ui q : String) (cfg : Option QueryJobConfig)
    (thr b : ℚ) (h : w.scanBytes q = Except.ok b)
    (hle : b / 1024 ^ 4 * (25/4) ≤ thr) :
    run_query w ui q cfg thr = submitReal w q cfg [Event.submit q (some dryRunConfig)] := by
  unfold run_query
  rw [estimate_eq, h]
  simp [Except.map, not_lt.mpr hle]

/-- When the estimate exceeds the threshold and the lowered input is not
"y", `run_query` prints the cancellation message and exits with status 0,
leaving the warehouse untouched. -/
theorem run_query_gt_decline (w : Warehouse) (ui q : String) (cfg : Option QueryJobConfig)
    (thr b : ℚ) (h : w.scanBytes q = Except.ok b)
    (hgt : b / 1024 ^ 4 * (25/4) > thr) (hn : lower ui ≠ "y") :
    run_query w ui q cfg thr =
      (([Event.submit q (some dryRunConfig), Event.prompt (b / 1024 ^ 4 * (25/4)),
         Event.printed "Query cancelled."], RunOutcome.exited 0), w) := by
  unfold run_query
  rw [estimate_eq, h]
  simp [Except.map, hgt, hn]

/-- When the estimate exceeds the threshold and the lowered input is "y",
`run_query` prompts once and then performs the real execution. -/
theorem run_query_gt_confirm (w : Warehouse) (ui q : String) (cfg : Option QueryJobConfig)
    (thr b : ℚ) (h : w.scanBytes q = Except.ok b)
    (hgt : b / 1024 ^ 4 * (25/4) > thr) (hy : lower ui = "y") :
    run_query w ui q cfg thr =
      submitReal w q cfg
        [Event.submit q (some dryRunConfig), Event.prompt (b / 1024 ^ 4 * (25/4))] := by
  unfold run_query
  rw [estimate_eq, h]
  simp [Except.map, hgt, hy]

/-- The trace of the real-execution call site: exactly one submission event,
carrying the caller config, appended to the prior trace. -/
theorem submitReal_trace (w : Warehouse) (q : String) (cfg : Option QueryJobConfig)
    (evs : List Event) :
    (submitReal w q cfg evs).1.1 = evs ++ [Event.submit q cfg] := by
  unfold submitReal
  rcases hq : w.query q cfg with ⟨res, w2⟩
  cases res <;> rfl

/-- A successful real execution returns the job handle obtained from the
warehouse. -/
theorem submitReal_ok (w : Warehouse) (q : String) (cfg : Option QueryJobConfig)
    (evs : List Event) (job : QueryJob) (w2 : Warehouse)
    (h : w.query q cfg = (Except.ok job, w2)) :
    submitReal w q cfg evs = ((evs ++ [Event.submit q cfg], RunOutcome.job job), w2) := by
  unfold submitReal
  rw [h]

/-- A failing real execution propagates the underlying error unmodified. -/
theorem submitReal_err (w : Warehouse) (q : String) (cfg : Option QueryJobConfig)
    (evs : List Event) (e : String) (w2 : Warehouse)
    (h : w.query q cfg = (Except.error e, w2)) :
    submitReal w q cfg evs = ((evs ++ [Event.submit q cfg], RunOutcome.raised e), w2) := by
  unfold submitReal
  rw [h]

/-- With no config (the BigQuery defaults) a cached query is served from the
result cache: the cached job is returned and the warehouse is unchanged. -/
theorem query_none_cached (w : Warehouse) (q : String) (j : QueryJob)
    (h : w.cache.lookup q = some j) :
    w.query q none = (Except.ok j, w) := by
  unfold Warehouse.query
  simp [h]

/-- Completeness of property copying: a key of `keys` that the source map
binds to `v` is bound to `v` in the copied association list. -/
theorem lookup_copied_mem (props : List (String × PropValue)) (keys : List String)
    (k : String) (hk : k ∈ keys) (v : PropValue) (hv : props.lookup k = some v) :
    (keys.filterMap fun k2 => (props.lookup k2).map fun u => (k2, u)).lookup k = some v := by
  induction keys with
  | nil => cases hk
  | cons a t ih =>
    rw [List.filterMap_cons]
    by_cases hka : k = a
    · subst hka
      rw [hv]
      simp only [Option.map_some']
      rw [List.lookup_cons, beq_self_eq_true]
    · rcases List.mem_cons.mp hk with hka2 | hkt
      · exact absurd hka2 hka
      · cases ha : props.lookup a with
        | none =>
          simp only [Option.map_none']
          exact ih hkt
        | some u =>
          simp only [Option.map_some']
          rw [List.lookup_cons, beq_false_of_ne hka]
          exact ih hkt

/-- Soundness of property copying: every binding of the copied association
list names a key of `keys` and carries exactly the value of the source map. -/
theorem lookup_copied_sound (props : List (String × PropValue)) (keys : List String)
    (k : String) (v : PropValue)
    (hv : (keys.filterMap fun k2 => (props.lookup k2).map fun u => (k2, u)).lookup k = some v) :
    k ∈ keys ∧ props.lookup k = some v := by
  induction keys with
  | nil => cases hv
  | cons a t ih =>
    rw [List.filterMap_cons] at hv
    cases ha : props.lookup a with
    | none =>
      rw [ha] at hv
      simp only [Option.map_none'] at hv
      rcases ih hv with ⟨hmem, hlook⟩
      exact ⟨List.mem_cons_of_mem a hmem, hlook⟩
    | some u =>
      rw [ha] at hv
      simp only [Option.map_some'] at hv
      rw [List.lookup_cons] at hv
      by_cases hka : k = a
      · subst hka
        rw [beq_self_eq_true] at hv
        simp only [] at hv
        cases hv
        exact ⟨List.mem_cons_self k t, ha⟩
      · rw [beq_false_of_ne hka] at hv
        simp only [] at hv
        rcases ih hv with ⟨hmem, hlook⟩
        exact ⟨List.mem_cons_of_mem a hmem, hlook⟩

/-!
Claim theorems.
-/

/-- Claim C1: for every query whose estimated cost is at most the warning
threshold, run_query submits the real query exactly once (the only events
are the dry-run submission and one real submission with the caller config),
never prompts for confirmation, and returns the job handle produced by the
submission. -/
theorem claim_C1_cheap_run_submits_once (w : Warehouse) (ui q : String)
    (cfg : Option QueryJobConfig) (thr b : ℚ)
    (h : w.scanBytes q = Except.ok b)
    (hle : b / 1024 ^ 4 * (25/4) ≤ thr) :
    (run_query w ui q cfg thr).1.1 =
      [Event.submit q (some dryRunConfig), Event.submit q cfg] ∧
    (run_query w ui q cfg thr).1.1.countP Event.isPrompt = 0 ∧
    ∀ job w2, w.query q cfg = (Except.ok job, w2) →
      (run_query w ui q cfg thr).1.2 = RunOutcome.job job := by
  rw [run_query_le w ui q cfg thr b h hle]
  refine ⟨?_, ?_, ?_⟩
  · rw [submitReal_trace]
    rfl
  · rw [submitReal_trace]
    rfl
  · intro job w2 hq
    rw [submitReal_ok w q cfg _ job w2 hq]

/-- Closed instance of claim C1: a zero-byte dry run with the default
threshold submits for real, with no prompt, and yields the job handle. -/
theorem claim_C1_witness :
    (run_query wZero "x" "Q" none (1/1000)).1.1 =
      [Event.submit "Q" (some dryRunConfig), Event.submit "Q" none] ∧
    (run_query wZero "x" "Q" none (1/1000)).1.1.countP Event.isPrompt = 0 ∧
    ∀ job w2, wZero.query "Q" none = (Except.ok job, w2) →
      (run_query wZero "x" "Q" none (1/1000)).1.2 = RunOutcome.job job :=
  claim_C1_cheap_run_submits_once wZero "x" "Q" none (1/1000) 0 rfl (by norm_num)

/-- Claim C2: for every query whose estimated cost exceeds the warning
threshold, run_query prompts exactly once; if the lowered input equals "y"
it submits the real query, and for any other input it terminates with exit
status 0 having performed only the dry-run submission. -/
theorem claim_C2_expensive_run_prompts_once (w : Warehouse) (ui q : String)
    (cfg : Option QueryJobConfig) (thr b : ℚ)
    (h : w.scanBytes q = Except.ok b)
    (hgt : b / 1024 ^ 4 * (25/4) > thr) :
    (run_query w ui q cfg thr).1.1.countP Event.isPrompt = 1 ∧
    (lower ui = "y" →
      (run_query w ui q cfg thr).1.1 =
        [Event.submit q (some dryRunConfig), Event.prompt (b / 1024 ^ 4 * (25/4)),
         Event.submit q cfg]) ∧
    (lower ui ≠ "y" →
      (run_query w ui q cfg thr).1.2 = RunOutcome.exited 0 ∧
      (run_query w ui q cfg thr).1.1.countP Event.isSubmit = 1) := by
  by_cases hy : lower ui = "y"
  · rw [run_query_gt_confirm w ui q cfg thr b h hgt hy, submitReal_trace]
    exact ⟨rfl, fun _ => rfl, fun hn => absurd hy hn⟩
  · rw [run_query_gt_decline w ui q cfg thr b h hgt hy]
    exact ⟨rfl, fun hcon => absurd hcon hy, fun _ => ⟨rfl, rfl⟩⟩

/-- Closed instance of claim C2: a one-tebibyte dry run (estimated cost
6.25) with the default threshold and the declining input "n". -/
theorem claim_C2_witness :
    (run_query wTB "n" "Q" none (1/1000)).1.1.countP Event.isPrompt = 1 ∧
    (lower "n" = "y" →
      (run_query wTB "n" "Q" none (1/1000)).1.1 =
        [Event.submit "Q" (some dryRunConfig),
         Event.prompt ((2 ^ 40 : ℚ) / 1024 ^ 4 * (25/4)),
         Event.submit "Q" none]) ∧
    (lower "n" ≠ "y" →
      (run_query wTB "n" "Q" none (1/1000)).1.2 = RunOutcome.exited 0 ∧
      (run_query wTB "n" "Q" none (1/1000)).1.1.countP Event.isSubmit = 1) :=
  claim_C2_expensive_run_prompts_once wTB "n" "Q" none (1/1000) (2 ^ 40) rfl (by norm_num)

/-- Claim C3: when the estimated cost exceeds the threshold and the
confirmation input is not affirmative, run_query prints "Query cancelled.",
terminates with exit status 0 (a clean exit, not a raised error), performs
only the single dry-run submission, and leaves the warehouse untouched. -/
theorem claim_C3_decline_clean_exit (w : Warehouse) (ui q : String)
    (cfg : Option QueryJobConfig) (thr b : ℚ)
    (h : w.scanBytes q = Except.ok b)
    (hgt : b / 1024 ^ 4 * (25/4) > thr) (hn : lower ui ≠ "y") :
    run_query w ui q cfg thr =
      (([Event.submit q (some dryRunConfig), Event.prompt (b / 1024 ^ 4 * (25/4)),
         Event.printed "Query cancelled."], RunOutcome.exited 0), w) ∧
    (run_query w ui q cfg thr).1.1.countP Event.isSubmit = 1 ∧
    ∀ e, (run_query w ui q cfg thr).1.2 ≠ RunOutcome.raised e := by
  rw [run_query_gt_decline w ui q cfg thr b h hgt hn]
  exact ⟨rfl, rfl, fun e hcon => RunOutcome.noConfusion hcon⟩

/-- Closed instance of claim C3: input "no" declines a 6.25-cost query under
the default threshold, giving a clean cancellation. -/
theorem claim_C3_witness :
    run_query wTB "no" "Q" none (1/1000) =
      (([Event.submit "Q" (some dryRunConfig),
         Event.prompt ((2 ^ 40 : ℚ) / 1024 ^ 4 * (25/4)),
         Event.printed "Query cancelled."], RunOutcome.exited 0), wTB) ∧
    (run_query wTB "no" "Q" none (1/1000)).1.1.countP Event.isSubmit = 1 ∧
    ∀ e, (run_query wTB "no" "Q" none (1/1000)).1.2 ≠ RunOutcome.raised e :=
  claim_C3_decline_clean_exit wTB "no" "Q" none (1/1000) (2 ^ 40) rfl (by norm_num)
    (by decide)

/-- Claim C4: for every dry-run byte count b and price-per-large-unit P,
estimate_query_cost returns exactly b / 2 ^ 40 * P (the source divisor
1024 ^ 4 equals 2 ^ 40; the arithmetic is exact over the rationals); in
particular a zero-byte dry run yields an estimated cost of 0. -/
theorem claim_C4_estimate_cost_formula (w : Warehouse) (q : String) (P b : ℚ)
    (h : w.scanBytes q = Except.ok b) :
    (estimate_query_cost w q P).1.2 = Except.ok (b / 2 ^ 40 * P) ∧
    (b = 0 → (estimate_query_cost w q P).1.2 = Except.ok 0) := by
  rw [estimate_eq, h]
  constructor
  · exact congrArg Except.ok (by norm_num)
  · rintro rfl
    exact congrArg Except.ok (by norm_num)

/-- Closed instance of claim C4: a one-tebibyte dry run at price 6 per
2 ^ 40 bytes is estimated at 2 ^ 40 / 2 ^ 40 * 6. -/
theorem claim_C4_witness :
    (estimate_query_cost wTB "Q" 6).1.2 = Except.ok ((2 ^ 40 : ℚ) / 2 ^ 40 * 6) ∧
    ((2 ^ 40 : ℚ) = 0 → (estimate_query_cost wTB "Q" 6).1.2 = Except.ok 0) :=
  claim_C4_estimate_cost_formula wTB "Q" 6 (2 ^ 40) rfl

/-- Claim C5: estimate_query_cost performs only the single dry-run
submission with the result cache disabled, never consults or populates the
cache (its result is independent of the cache contents and the warehouse
state is unchanged), and is idempotent: a second call on the resulting state
returns the same value. -/
theorem claim_C5_estimate_pure_dry_run (w : Warehouse) (q : String) (P : ℚ) :
    dryRunConfig.dry_run = true ∧
    dryRunConfig.use_query_cache = false ∧
    (estimate_query_cost w q P).1.1 = [Event.submit q (some dryRunConfig)] ∧
    (estimate_query_cost w q P).2 = w ∧
    (estimate_query_cost (estimate_query_cost w q P).2 q P).1.2 =
      (estimate_query_cost w q P).1.2 ∧
    ∀ c2, (estimate_query_cost { w with cache := c2 } q P).1.2 =
      (estimate_query_cost w q P).1.2 := by
  refine ⟨rfl, rfl, ?_, ?_, ?_, ?_⟩ <;> simp [estimate_eq]

/-- Claim C6: no retry or local recovery anywhere: a failing dry run makes
run_query propagate the underlying error unmodified with no real
submission, and a failing real execution (reached either through the cheap
path or after an affirmative confirmation) propagates its error
unmodified. -/
theorem claim_C6_no_retry_error_propagation (w : Warehouse) (ui q : String)
    (cfg : Option QueryJobConfig) (thr : ℚ) :
    (∀ e, w.scanBytes q = Except.error e →
      run_query w ui q cfg thr =
        (([Event.submit q (some dryRunConfig)], RunOutcome.raised e), w)) ∧
    (∀ b e w2, w.scanBytes q = Except.ok b → b / 1024 ^ 4 * (25/4) ≤ thr →
      w.query q cfg = (Except.error e, w2) →
      (run_query w ui q cfg thr).1.2 = RunOutcome.raised e) ∧
    (∀ b e w2, w.scanBytes q = Except.ok b → b / 1024 ^ 4 * (25/4) > thr →
      lower ui = "y" → w.query q cfg = (Except.error e, w2) →
      (run_query w ui q cfg thr).1.2 = RunOutcome.raised e) := by
  refine ⟨fun e he => run_query_dry_error w ui q cfg thr e he, ?_, ?_⟩
  · intro b e w2 hb hle hq
    rw [run_query_le w ui q cfg thr b hb hle, submitReal_err w q cfg _ e w2 hq]
  · intro b e w2 hb hgt hy hq
    rw [run_query_gt_confirm w ui q cfg thr b hb hgt hy, submitReal_err w q cfg _ e w2 hq]

/-- Closed instance of claim C6: a failing dry-run submission surfaces its
error unmodified with no real submission. -/
theorem claim_C6_witness :
    run_query wFail "y" "Q" none (1/1000) =
      (([Event.submit "Q" (some dryRunConfig)], RunOutcome.raised "dry run failed"),
       wFail) :=
  (claim_C6_no_retry_error_propagation wFail "y" "Q" none (1/1000)).1 "dry run failed" rfl

/-- Claim C7: every row exported by images_to_points has as its geometry a
single point, the centroid of the footprint of some source image of the
collection, and never a polygon. -/
theorem claim_C7_geometry_is_centroid_point (api : EEApi) (col : List Image)
    (f : Feature) (hf : f ∈ images_to_points api col) :
    ∃ img ∈ col,
      f.geometry = EEGeometry.point (api.centroidPt img.geometry) ∧
      ∀ vs, f.geometry ≠ EEGeometry.polygon vs := by
  rcases List.mem_map.mp hf with ⟨img, hmem, rfl⟩
  exact ⟨img, hmem, rfl, fun vs hcon => EEGeometry.noConfusion hcon⟩

/-- Closed instance of claim C7: the row exported for the triangular image
img0 carries a point geometry, never a polygon. -/
theorem claim_C7_witness :
    ∃ img ∈ [img0],
      (centroid apiZero img0).geometry =
        EEGeometry.point (apiZero.centroidPt img.geometry) ∧
      ∀ vs, (centroid apiZero img0).geometry ≠ EEGeometry.polygon vs :=
  claim_C7_geometry_is_centroid_point apiZero [img0] (centroid apiZero img0)
    (by simp [images_to_points])

/-- Claim C8: every exported row carries exactly the keep_cols property
subset — the eight destination schema columns — with each value copied
unchanged from the source image, plus the centroid point geometry: a source
property named in keep_cols reappears unchanged, and every property of the
row is one of the keep_cols names with the unchanged source value. -/
theorem claim_C8_row_property_subset (api : EEApi) (col : List Image)
    (f : Feature) (hf : f ∈ images_to_points api col) :
    keep_cols = ["SPACECRAFT_ID", "DATE_ACQUIRED", "WRS_PATH", "WRS_ROW",
      "COLLECTION_CATEGORY", "CLOUD_COVER_LAND", "CLOUD_COVER", "SUN_ELEVATION"] ∧
    ∃ img ∈ col,
      (∀ k v, k ∈ keep_cols → img.properties.lookup k = some v →
        f.properties.lookup k = some v) ∧
      (∀ k v, f.properties.lookup k = some v →
        k ∈ keep_cols ∧ img.properties.lookup k = some v) ∧
      f.geometry = EEGeometry.point (api.centroidPt img.geometry) := by
  refine ⟨rfl, ?_⟩
  rcases List.mem_map.mp hf with ⟨img, hmem, rfl⟩
  refine ⟨img, hmem, ?_, ?_, rfl⟩
  · intro k v hk hv
    exact lookup_copied_mem img.properties keep_cols k hk v hv
  · intro k v hv
    exact lookup_copied_sound img.properties keep_cols k v hv

/-- Closed instance of claim C8, at the concrete image img0. -/
theorem claim_C8_witness :
    keep_cols = ["SPACECRAFT_ID", "DATE_ACQUIRED", "WRS_PATH", "WRS_ROW",
      "COLLECTION_CATEGORY", "CLOUD_COVER_LAND", "CLOUD_COVER", "SUN_ELEVATION"] ∧
    ∃ img ∈ [img0],
      (∀ k v, k ∈ keep_cols → img.properties.lookup k = some v →
        (centroid apiZero img0).properties.lookup k = some v) ∧
      (∀ k v, (centroid apiZero img0).properties.lookup k = some v →
        k ∈ keep_cols ∧ img.properties.lookup k = some v) ∧
      (centroid apiZero img0).geometry =
        EEGeometry.point (apiZero.centroidPt img.geometry) :=
  claim_C8_row_property_subset apiZero [img0] (centroid apiZero img0)
    (by simp [images_to_points])

/-- Claim C9: run_query gates the confirmation on an estimate computed with
price 6.25 (25/4) per 2 ^ 40 bytes, while the default price of
estimate_query_cost is 6; for a nonzero byte count the gating cost differs
from the default-priced estimate exactly by the factor 25/24, and the prompt
fires precisely when 25/24 times the default-priced estimate exceeds the
threshold. -/
theorem claim_C9_price_override (w : Warehouse) (ui q : String)
    (cfg : Option QueryJobConfig) (thr b : ℚ)
    (h : w.scanBytes q = Except.ok b) (hb : b ≠ 0) :
    (estimate_query_cost w q).1.2 = Except.ok (b / 1024 ^ 4 * 6) ∧
    (estimate_query_cost w q (25/4)).1.2 =
      Except.ok ((25/24) * (b / 1024 ^ 4 * 6)) ∧
    b / 1024 ^ 4 * (25/4) ≠ b / 1024 ^ 4 * 6 ∧
    (run_query w ui q cfg thr).1.1.countP Event.isPrompt =
      (if (25/24) * (b / 1024 ^ 4 * 6) > thr then 1 else 0) := by
  have key : (25/24 : ℚ) * (b / 1024 ^ 4 * 6) = b / 1024 ^ 4 * (25/4) := by ring
  refine ⟨?_, ?_, ?_, ?_⟩
  · rw [estimate_eq, h]
    rfl
  · rw [estimate_eq, h]
    exact congrArg Except.ok (by ring)
  · intro heq
    have h1 : b / 1024 ^ 4 ≠ 0 := div_ne_zero hb (by norm_num)
    have h2 := mul_left_cancel₀ h1 heq
    norm_num at h2
  · rw [key]
    by_cases hc : b / 1024 ^ 4 * (25/4) > thr
    · rw [if_pos hc]
      by_cases hy : lower ui = "y"
      · rw [run_query_gt_confirm w ui q cfg thr b h hc hy, submitReal_trace]
        rfl
      · rw [run_query_gt_decline w ui q cfg thr b h hc hy]
        rfl
    · rw [if_neg hc, run_query_le w ui q cfg thr b h (not_lt.mp hc), submitReal_trace]
      rfl

/-- Closed instance of claim C9, at a one-tebibyte dry run. -/
theorem claim_C9_witness :
    (estimate_query_cost wTB "Q").1.2 = Except.ok ((2 ^ 40 : ℚ) / 1024 ^ 4 * 6) ∧
    (estimate_query_cost wTB "Q" (25/4)).1.2 =
      Except.ok ((25/24) * ((2 ^ 40 : ℚ) / 1024 ^ 4 * 6)) ∧
    (2 ^ 40 : ℚ) / 1024 ^ 4 * (25/4) ≠ (2 ^ 40 : ℚ) / 1024 ^ 4 * 6 ∧
    (run_query wTB "n" "Q" none (1/1000)).1.1.countP Event.isPrompt =
      (if (25/24) * ((2 ^ 40 : ℚ) / 1024 ^ 4 * 6) > 1/1000 then 1 else 0) :=
  claim_C9_price_override wTB "n" "Q" none (1/1000) (2 ^ 40) rfl (by norm_num)

/-- Claim C10: the dry-run settings apply only to the estimation. Whenever
run_query performs the real submission it passes the caller config
unchanged (default none, the engine defaults), so dry_run and
use_query_cache never leak into the real query; in particular with the
default config a cached query is served from the result cache. -/
theorem claim_C10_real_uses_caller_config (w : Warehouse) (ui q : String)
    (cfg : Option QueryJobConfig) (thr b : ℚ)
    (h : w.scanBytes q = Except.ok b) :
    (b / 1024 ^ 4 * (25/4) ≤ thr →
      (run_query w ui q cfg thr).1.1 =
        [Event.submit q (some dryRunConfig), Event.submit q cfg]) ∧
    (b / 1024 ^ 4 * (25/4) > thr → lower ui = "y" →
      (run_query w ui q cfg thr).1.1 =
        [Event.submit q (some dryRunConfig), Event.prompt (b / 1024 ^ 4 * (25/4)),
         Event.submit q cfg]) ∧
    (∀ j, w.cache.lookup q = some j → b / 1024 ^ 4 * (25/4) ≤ thr →
      run_query w ui q none thr =
        (([Event.submit q (some dryRunConfig), Event.submit q none],
          RunOutcome.job j), w)) := by
  refine ⟨?_, ?_, ?_⟩
  · intro hle
    rw [run_query_le w ui q cfg thr b h hle, submitReal_trace]
    rfl
  · intro hgt hy
    rw [run_query_gt_confirm w ui q cfg thr b h hgt hy, submitReal_trace]
    rfl
  · intro j hj hle
    rw [run_query_le w ui q none thr b h hle,
        submitReal_ok w q none _ j w (query_none_cached w q j hj)]
    rfl

/-- Closed instance of claim C10: with the cached warehouse and no config,
the cheap path serves the real query from the result cache. -/
theorem claim_C10_witness :
    ((2 ^ 40 : ℚ) * 0 / 1024 ^ 4 * (25/4) ≤ 1/1000) ∧
    run_query wCached "x" "Q" none (1/1000) =
      (([Event.submit "Q" (some dryRunConfig), Event.submit "Q" none],
        RunOutcome.job { total_bytes_processed := 7 }), wCached) :=
  ⟨by norm_num,
   (claim_C10_real_uses_caller_config wCached "x" "Q" none (1/1000) 0 rfl).2.2
     { total_bytes_processed := 7 } rfl (by norm_num)⟩

end LandsatBigQuery
